import Mathlib

/-!
Shallow embedding of the volleyball-stats-tracker backend (`src/server.js`,
Express + node-sqlite3) together with the relevant behavior of its SQLite
schema (`initializeDatabase`).

Modelling conventions:
* JavaScript request-body values are modelled by `JVal` (JSON values plus
  `undefined`); JS numbers are modelled by `ℚ` (no claim here depends on
  floating-point artifacts, and SQL `COUNT`/`AVG` over the small integer
  ratings is exact).
* The SQLite tables are lists of rows; `AUTOINCREMENT` ids are `Nat`
  counters carried in the database state.  `CURRENT_TIMESTAMP` is an
  abstract `Nat` supplied to each handler.
* SQLite does not enforce the declared `FOREIGN KEY` clauses: the source
  never issues `PRAGMA foreign_keys = ON`, and the pragma defaults to off,
  so inserts into `pass_stats` are not checked against `sessions`/`players`.
* The `CHECK (rating BETWEEN 0 AND 3)` constraint follows SQLite semantics:
  a NULL check result passes, numbers compare numerically, and TEXT sorts
  after every number (so a non-numeric string fails `rating <= 3`).
* Route parameters (`req.params.*`) are nonempty strings whenever the route
  matches, and SQLite's INTEGER column affinity converts numeric strings in
  comparisons; we model them directly by their numeric value `ℚ` (or `Nat`
  for player ids).  The handlers' falsy checks on route params
  (`!sessionId` etc.) can therefore never fire and are not modelled.
-/

set_option autoImplicit false

namespace VolleyballServer

/-- A JavaScript/JSON value as it appears in request bodies, table cells and
JSON responses. -/
inductive JVal where
  | vNull
  | vUndefined
  | vBool (b : Bool)
  | vNum (q : ℚ)
  | vStr (s : String)
  | vObj (fields : List (String × JVal))
  | vArr (elems : List JVal)

/-- JavaScript truthiness, as used by the handlers' `if (!x)` guards.
`NaN` is not modelled (no claim involves it). -/
def JVal.truthy : JVal → Bool
  | .vNull => false
  | .vUndefined => false
  | .vBool b => b
  | .vNum q => decide (q ≠ 0)
  | .vStr s => decide (s ≠ "")
  | .vObj _ => true
  | .vArr _ => true

/-- The strict comparison `x === undefined` used by the pass-stats handler. -/
def JVal.isUndefined : JVal → Bool
  | .vUndefined => true
  | _ => false

/-- `true` iff node-sqlite3 binds the value as SQL NULL (JS `null` and
`undefined` are both bound as NULL). -/
def JVal.isNullish : JVal → Bool
  | .vNull => true
  | .vUndefined => true
  | _ => false

/-- Field lookup in a JSON object value; `none` on non-objects and missing
keys. -/
def objLookup : JVal → String → Option JVal
  | .vObj fields, key => lookupFields fields key
  | _, _ => none
where
  lookupFields : List (String × JVal) → String → Option JVal
    | [], _ => none
    | (k, v) :: rest, key => if k = key then some v else lookupFields rest key

/-- Row of the `players` table (`id INTEGER PRIMARY KEY AUTOINCREMENT,
name TEXT NOT NULL, jersey_number INTEGER NOT NULL`). -/
structure PlayerRow where
  id : Nat
  name : JVal
  jersey_number : JVal

/-- Row of the `sessions` table. -/
structure SessionRow where
  id : Nat
  name : JVal
  date : Nat

/-- Row of the `pass_stats` table.  `session_id`, `player_id` and `rating`
hold whatever the insert bound (SQLite is dynamically typed and the foreign
keys are unenforced); `timestamp` is the server-assigned insert time. -/
structure PassRow where
  id : Nat
  session_id : JVal
  player_id : JVal
  rating : JVal
  timestamp : Nat

/-- The SQLite database state: the three tables plus the AUTOINCREMENT
counters. -/
structure DB where
  players : List PlayerRow
  sessions : List SessionRow
  pass_stats : List PassRow
  nextPlayerId : Nat
  nextSessionId : Nat
  nextPassId : Nat

/-- An HTTP response: status code plus JSON body. -/
structure Resp where
  status : Nat
  body : JVal

/-- The `{ error: msg }` JSON body used by every error path. -/
def errBody (msg : String) : JVal :=
  .vObj [("error", .vStr msg)]

/-- INTEGER column affinity as far as the claims need it: JS booleans are
bound as 0/1, `undefined`/`null` are bound as NULL.  (Conversion of
numeric-looking strings is not modelled; every claim binds numbers.) -/
def intAffinity : JVal → JVal
  | .vBool b => .vNum (if b then 1 else 0)
  | .vUndefined => .vNull
  | v => v

/-- The stored-value outcome of `CHECK (rating BETWEEN 0 AND 3)`:
NULL check results pass, numbers must lie in [0,3], TEXT sorts after all
numbers so any string fails `rating <= 3`; objects/arrays cannot be bound. -/
def ratingCheckOk : JVal → Bool
  | .vNull => true
  | .vNum q => decide (0 ≤ q) && decide (q ≤ 3)
  | _ => false

/-- SQLite equality of a stored cell against a numeric query parameter:
NULL equals nothing, numbers compare by value, and values of a different
storage class are unequal. -/
def sqlEqNum : JVal → ℚ → Bool
  | .vNum q, n => decide (q = n)
  | _, _ => false

/-! ## Request handlers (`src/server.js`) -/

/-- `POST /api/players`: rejects with 400 when `!name || !jersey_number`,
else inserts and echoes `{ id: this.lastID, name, jersey_number }`. -/
def addPlayer (db : DB) (name jersey_number : JVal) : DB × Resp :=
  if !name.truthy || !jersey_number.truthy then
    (db, ⟨400, errBody "Name and jersey number are required"⟩)
  else
    ({ db with
        players := db.players ++ [⟨db.nextPlayerId, name, intAffinity jersey_number⟩],
        nextPlayerId := db.nextPlayerId + 1 },
     ⟨200, .vObj [("id", .vNum db.nextPlayerId), ("name", name),
                  ("jersey_number", jersey_number)]⟩)

/-- `PUT /api/players/:id`: no input validation; runs
`UPDATE players SET name = ?, jersey_number = ? WHERE id = ?` directly.
When a row matches and a bound value is NULL (JS `undefined`/`null`), the
`NOT NULL` column constraints abort the statement and the handler answers
500; otherwise the handler answers 200 echoing the request values (also
when zero rows matched). -/
def updatePlayer (db : DB) (id : Nat) (name jersey_number : JVal) : DB × Resp :=
  if !(db.players.filter (fun p => decide (p.id = id))).isEmpty
      && (name.isNullish || jersey_number.isNullish) then
    (db, ⟨500, errBody "SQLITE_CONSTRAINT: NOT NULL constraint failed: players"⟩)
  else
    ({ db with
        players := db.players.map (fun p =>
          if p.id = id then { p with name := name, jersey_number := intAffinity jersey_number }
          else p) },
     ⟨200, .vObj [("id", .vNum id), ("name", name),
                  ("jersey_number", jersey_number)]⟩)

/-- `DELETE /api/players/:id`: unconditional
`DELETE FROM players WHERE id = ?` followed by the same success message
whether or not a row existed. -/
def deletePlayer (db : DB) (id : Nat) : DB × Resp :=
  ({ db with players := db.players.filter (fun p => decide (p.id ≠ id)) },
   ⟨200, .vObj [("message", .vStr "Player deleted successfully")]⟩)

/-- `POST /api/sessions`: 400 when `!name`, else inserts with
`CURRENT_TIMESTAMP` and echoes `{ id, name }`. -/
def createSession (db : DB) (name : JVal) (now : Nat) : DB × Resp :=
  if !name.truthy then
    (db, ⟨400, errBody "Session name is required"⟩)
  else
    ({ db with
        sessions := db.sessions ++ [⟨db.nextSessionId, name, now⟩],
        nextSessionId := db.nextSessionId + 1 },
     ⟨200, .vObj [("id", .vNum db.nextSessionId), ("name", name)]⟩)

/-- `POST /api/pass_stats`: 400 when
`!session_id || !player_id || rating === undefined`; otherwise
`INSERT INTO pass_stats (session_id, player_id, rating) VALUES (?, ?, ?)`.
The insert performs no existence check on `session_id`/`player_id` (foreign
keys are unenforced); the `CHECK (rating BETWEEN 0 AND 3)` aborts the
statement (answered 500) for out-of-range values.  On success the response
is only `{ id: this.lastID, session_id, player_id, rating }`. -/
def recordPass (db : DB) (session_id player_id rating : JVal) (now : Nat) : DB × Resp :=
  if !session_id.truthy || !player_id.truthy || rating.isUndefined then
    (db, ⟨400, errBody "Session ID, player ID, and rating are required"⟩)
  else if !ratingCheckOk (intAffinity rating) then
    (db, ⟨500, errBody "SQLITE_CONSTRAINT: CHECK constraint failed: pass_stats"⟩)
  else
    ({ db with
        pass_stats := db.pass_stats ++
          [⟨db.nextPassId, intAffinity session_id, intAffinity player_id,
            intAffinity rating, now⟩],
        nextPassId := db.nextPassId + 1 },
     ⟨200, .vObj [("id", .vNum db.nextPassId), ("session_id", session_id),
                  ("player_id", player_id), ("rating", rating)]⟩)

/-! ## The aggregation queries -/

/-- The rows of `pass_stats` satisfying
`ps.player_id = <playerId> AND ps.session_id = <sessionId>` — the join/filter
condition shared by the session-stats query and the undo queries. -/
def passMatches (db : DB) (sessionId playerId : ℚ) : List PassRow :=
  db.pass_stats.filter (fun ps =>
    sqlEqNum ps.player_id playerId && sqlEqNum ps.session_id sessionId)

/-- The numeric ratings among a list of rows, as consumed by
`AVG(ps.rating)` (AVG ignores NULLs; in every reachable database a stored
rating is numeric or NULL, since the CHECK rejects strings). -/
def numRatings (rows : List PassRow) : List ℚ :=
  rows.filterMap (fun ps =>
    match ps.rating with
    | .vNum q => some q
    | _ => none)

/-- SQL `AVG`: NULL over the empty bag, the exact mean otherwise. -/
def avgOpt (qs : List ℚ) : Option ℚ :=
  match qs with
  | [] => none
  | _ => some (qs.sum / (qs.length : ℚ))

/-- One result row of the session-stats query (`average_rating = none`
models SQL NULL, serialized as JSON `null`). -/
structure StatRow where
  player_id : Nat
  name : JVal
  jersey_number : JVal
  total_passes : Nat
  average_rating : Option ℚ

/-- The per-player group of the LEFT JOIN query: `COUNT(ps.id)` counts the
matching `pass_stats` rows (0 when the left join produced only the NULL
row), `AVG(ps.rating)` averages their ratings (NULL when there are none). -/
def playerStat (db : DB) (sessionId : ℚ) (p : PlayerRow) : StatRow :=
  let ms := passMatches db sessionId (p.id : ℚ)
  ⟨p.id, p.name, p.jersey_number, ms.length, avgOpt (numRatings ms)⟩

/-- `GET /api/session/:id/stats`: the `LEFT JOIN ... GROUP BY p.id` query —
one aggregate row per `players` row. -/
def getSessionStats (db : DB) (sessionId : ℚ) : List StatRow :=
  db.players.map (playerStat db sessionId)

/-! ## Undo (`DELETE /api/session/:sessionId/player/:playerId/last_pass`)

The handler first runs
`SELECT id FROM pass_stats WHERE session_id = ? AND player_id = ?
 ORDER BY timestamp DESC LIMIT 1`.
The `ORDER BY` has no secondary key, so when several matching rows share
the maximal timestamp (which with `CURRENT_TIMESTAMP`'s one-second
resolution happens for any two taps within a second) SQLite is free to
return any of them.  We model this nondeterminism relationally: a row is an
*admissible* query result iff it matches and no matching row has a strictly
larger timestamp. -/

/-- A row the `ORDER BY timestamp DESC LIMIT 1` query may return. -/
def AdmissibleLastPass (db : DB) (sessionId playerId : ℚ) (r : PassRow) : Prop :=
  r ∈ passMatches db sessionId playerId ∧
    ∀ s ∈ passMatches db sessionId playerId, s.timestamp ≤ r.timestamp

/-- `DELETE FROM pass_stats WHERE id = ?`. -/
def undoDelete (db : DB) (rowId : Nat) : DB :=
  { db with pass_stats := db.pass_stats.filter (fun r => decide (r.id ≠ rowId)) }

/-- JSON serialization of a stats row (SQL NULL becomes JSON `null`). -/
def statRowJson (s : StatRow) : JVal :=
  .vObj [("player_id", .vNum (s.player_id : ℚ)), ("name", s.name),
         ("jersey_number", s.jersey_number),
         ("total_passes", .vNum (s.total_passes : ℚ)),
         ("average_rating",
          match s.average_rating with
          | some q => .vNum q
          | none => .vNull)]

/-- The tail of the undo handler after the selected row id has been
deleted: recompute the single-player aggregate (the same LEFT JOIN with
`WHERE p.id = ?`) and answer with the confirmation message plus the stats
(or the zero-valued fallback object when the player row is gone). -/
def undoRespond (db : DB) (sessionId playerId : ℚ) (deletedId : Nat) : DB × Resp :=
  let db2 := undoDelete db deletedId
  let updatedStats :=
    (db2.players.filter (fun p => decide ((p.id : ℚ) = playerId))).head?.map
      (playerStat db2 sessionId)
  (db2,
   ⟨200, .vObj [("message", .vStr "Last pass deleted successfully"),
                ("stats",
                 match updatedStats with
                 | some s => statRowJson s
                 | none => .vObj [("player_id", .vNum playerId),
                                  ("total_passes", .vNum 0),
                                  ("average_rating", .vNum 0)])]⟩)

/-- The undo endpoint as a relation between the pre-state and the possible
(post-state, response) outcomes: 404 leaving the store untouched when no
row matches, otherwise deletion of some admissible query result. -/
def UndoLastPass (db : DB) (sessionId playerId : ℚ) (result : DB × Resp) : Prop :=
  (passMatches db sessionId playerId = [] ∧
    result = (db, ⟨404, errBody "No passes found to undo"⟩)) ∨
  (∃ r, AdmissibleLastPass db sessionId playerId r ∧
    result = undoRespond db sessionId playerId r.id)

/-! ## Recording a sequence of passes -/

/-- Recording a sequence of ratings for one (session, player) pair through
the `POST /api/pass_stats` handler, each insert one clock tick after the
previous one. -/
def recordAll (db : DB) (sessionId playerId : ℚ) (ratings : List ℚ) (now : Nat) : DB :=
  match ratings with
  | [] => db
  | r :: rest =>
      recordAll (recordPass db (.vNum sessionId) (.vNum playerId) (.vNum r) now).1
        sessionId playerId rest (now + 1)

/-! ## Helper lemmas -/

/-- A successful `POST /api/pass_stats` with numeric, in-range arguments
appends exactly one row and echoes the inserted values. -/
lemma recordPass_insert (db : DB) (sid pid r : ℚ) (now : Nat)
    (hs : sid ≠ 0) (hp : pid ≠ 0) (h0 : 0 ≤ r) (h3 : r ≤ 3) :
    recordPass db (.vNum sid) (.vNum pid) (.vNum r) now =
      ({ db with
          pass_stats := db.pass_stats ++
            [⟨db.nextPassId, .vNum sid, .vNum pid, .vNum r, now⟩],
          nextPassId := db.nextPassId + 1 },
       ⟨200, .vObj [("id", .vNum (db.nextPassId : ℚ)), ("session_id", .vNum sid),
                    ("player_id", .vNum pid), ("rating", .vNum r)]⟩) := by
  simp [recordPass, JVal.truthy, JVal.isUndefined, intAffinity, ratingCheckOk,
    hs, hp, h0, h3]

/-- A freshly inserted row for the pair satisfies the match condition. -/
lemma passMatches_append_own (l : List PassRow) (sid pid : ℚ) (row : PassRow)
    (hrow : (sqlEqNum row.player_id pid && sqlEqNum row.session_id sid) = true) :
    (l ++ [row]).filter
        (fun ps => sqlEqNum ps.player_id pid && sqlEqNum ps.session_id sid) =
      l.filter (fun ps => sqlEqNum ps.player_id pid && sqlEqNum ps.session_id sid)
        ++ [row] := by
  rw [List.filter_append]
  simp [List.filter, hrow]

/-- `avgOpt` on a nonempty list is the exact mean. -/
lemma avgOpt_of_ne_nil (qs : List ℚ) (h : qs ≠ []) :
    avgOpt qs = some (qs.sum / (qs.length : ℚ)) := by
  cases qs with
  | nil => exact absurd rfl h
  | cons a t => rfl

/-- Effect of `recordAll` on the store: players untouched, the matching
rows for the pair gain one row per rating, and the ratings seen by `AVG`
are extended by exactly the recorded sequence. -/
lemma recordAll_spec (sid pid : ℚ) (hs : sid ≠ 0) (hp : pid ≠ 0) :
    ∀ (rs : List ℚ) (db : DB) (now : Nat), (∀ r ∈ rs, 0 ≤ r ∧ r ≤ 3) →
      (recordAll db sid pid rs now).players = db.players ∧
      (passMatches (recordAll db sid pid rs now) sid pid).length =
        (passMatches db sid pid).length + rs.length ∧
      numRatings (passMatches (recordAll db sid pid rs now) sid pid) =
        numRatings (passMatches db sid pid) ++ rs := by
  intro rs
  induction rs with
  | nil => intro db now _; simp [recordAll]
  | cons r rest ih =>
      intro db now hb
      have hr := hb r (List.mem_cons_self r rest)
      have hrest : ∀ x ∈ rest, 0 ≤ x ∧ x ≤ 3 :=
        fun x hx => hb x (List.mem_cons_of_mem r hx)
      have hstep := recordPass_insert db sid pid r now hs hp hr.1 hr.2
      have hra : recordAll db sid pid (r :: rest) now =
          recordAll (recordPass db (.vNum sid) (.vNum pid) (.vNum r) now).1
            sid pid rest (now + 1) := rfl
      rw [hra, hstep]
      set db1 : DB :=
        { db with
            pass_stats := db.pass_stats ++
              [⟨db.nextPassId, .vNum sid, .vNum pid, .vNum r, now⟩],
            nextPassId := db.nextPassId + 1 } with hdb1
      obtain ⟨ihp, ihlen, ihnum⟩ := ih db1 (now + 1) hrest
      have hmatch : passMatches db1 sid pid =
          passMatches db sid pid ++
            [⟨db.nextPassId, .vNum sid, .vNum pid, .vNum r, now⟩] := by
        rw [hdb1]
        unfold passMatches
        exact passMatches_append_own _ _ _ _ (by simp [sqlEqNum])
      refine ⟨by rw [ihp, hdb1], ?_, ?_⟩
      · rw [ihlen, hmatch]
        simp [List.length_append]
        omega
      · rw [ihnum, hmatch]
        unfold numRatings
        rw [List.filterMap_append]
        simp

/-! ## Claims -/

/-- C6: for a (session, player) pair with zero matching pass events, the
undo endpoint can only answer 404 "No passes found to undo" and leave the
database (in particular `pass_stats`) unchanged. -/
theorem undo_empty_404_no_deletion (db : DB) (sid pid : ℚ) (res : DB × Resp)
    (hempty : passMatches db sid pid = []) (hrun : UndoLastPass db sid pid res) :
    res = (db, ⟨404, errBody "No passes found to undo"⟩) := by
  rcases hrun with ⟨_, h⟩ | ⟨r, ⟨hmem, _⟩, _⟩
  · exact h
  · rw [hempty] at hmem
    exact absurd hmem (List.not_mem_nil r)

/-- Database with one registered player and one session and no pass events,
used to witness the undo-on-empty behavior. -/
def dbUndoEmpty : DB :=
  ⟨[⟨1, .vStr "Ana", .vNum 7⟩], [⟨1, .vStr "S", 0⟩], [], 2, 2, 1⟩

theorem undo_empty_404_no_deletion_witness :
    passMatches dbUndoEmpty 1 1 = [] ∧
      (dbUndoEmpty, (⟨404, errBody "No passes found to undo"⟩ : Resp)).1 = dbUndoEmpty := by
  refine ⟨rfl, ?_⟩
  have h := undo_empty_404_no_deletion dbUndoEmpty 1 1
    (dbUndoEmpty, ⟨404, errBody "No passes found to undo"⟩) rfl (Or.inl ⟨rfl, rfl⟩)
  rw [h]

/-- C8: `DELETE /api/players/:id` is idempotent — a second delete of the
same id changes nothing and produces the identical response — it always
answers the same 200 confirmation, and afterwards no registered player
carries the deleted id. -/
theorem deletePlayer_idempotent (db : DB) (id : Nat) :
    deletePlayer (deletePlayer db id).1 id = deletePlayer db id ∧
    (deletePlayer db id).2 =
      ⟨200, .vObj [("message", .vStr "Player deleted successfully")]⟩ ∧
    ∀ p ∈ (deletePlayer db id).1.players, p.id ≠ id := by
  refine ⟨?_, rfl, ?_⟩
  · unfold deletePlayer
    simp [List.filter_filter]
  · intro p hp
    have := (List.mem_filter.mp hp).2
    exact of_decide_eq_true this

/-- Registry with two players, used to witness delete idempotence. -/
def dbDeleteW : DB :=
  ⟨[⟨1, .vStr "Ana", .vNum 7⟩, ⟨2, .vStr "Bea", .vNum 9⟩], [], [], 3, 1, 1⟩

theorem deletePlayer_idempotent_witness :
    deletePlayer (deletePlayer dbDeleteW 1).1 1 = deletePlayer dbDeleteW 1 :=
  (deletePlayer_idempotent dbDeleteW 1).1

/-- C10: a valid-looking `POST /api/pass_stats` succeeds and inserts the
row even when no session row has id `sid` and no player row has id `pid`:
the handler performs no existence check and the declared foreign keys are
not enforced. -/
theorem recordPass_dangling_references_accepted (db : DB) (sid pid r : ℚ) (now : Nat)
    (hs : sid ≠ 0) (hp : pid ≠ 0) (h0 : 0 ≤ r) (h3 : r ≤ 3)
    (hnosession : ∀ s ∈ db.sessions, (s.id : ℚ) ≠ sid)
    (hnoplayer : ∀ p ∈ db.players, (p.id : ℚ) ≠ pid) :
    (recordPass db (.vNum sid) (.vNum pid) (.vNum r) now).2.status = 200 ∧
    (recordPass db (.vNum sid) (.vNum pid) (.vNum r) now).1.pass_stats =
      db.pass_stats ++ [⟨db.nextPassId, .vNum sid, .vNum pid, .vNum r, now⟩] := by
  rw [recordPass_insert db sid pid r now hs hp h0 h3]
  exact ⟨rfl, rfl⟩

/-- Completely empty database: session 9 and player 8 reference nothing. -/
def dbEmptyW : DB := ⟨[], [], [], 1, 1, 1⟩

theorem recordPass_dangling_references_accepted_witness :
    (recordPass dbEmptyW (.vNum 9) (.vNum 8) (.vNum 2) 0).2.status = 200 ∧
    (recordPass dbEmptyW (.vNum 9) (.vNum 8) (.vNum 2) 0).1.pass_stats =
      [⟨1, .vNum 9, .vNum 8, .vNum 2, 0⟩] := by
  have h := recordPass_dangling_references_accepted dbEmptyW 9 8 2 0
    (by norm_num) (by norm_num) (by norm_num) (by norm_num)
    (by simp [dbEmptyW]) (by simp [dbEmptyW])
  exact ⟨h.1, by rw [h.2]; rfl⟩

/-- Database containing session 1 and player 1, so that
`POST /pass_stats {session_id: 1, player_id: 1, rating: 2}` is a fully
valid request in the sense of C1. -/
def dbValidReq : DB :=
  ⟨[⟨1, .vStr "Ana", .vNum 7⟩], [⟨1, .vStr "S", 0⟩], [], 2, 2, 1⟩

/-- C1: the response to a valid `POST /api/pass_stats` is only the created
PassEvent `{id, session_id, player_id, rating}`; it contains no
recomputed aggregate — no `stats`, `total_passes` or `average_rating`
field — although the repository's own client reads `response.data.stats`
from exactly this response. -/
theorem recordPass_response_lacks_aggregate :
    (recordPass dbValidReq (.vNum 1) (.vNum 1) (.vNum 2) 5).2 =
      ⟨200, .vObj [("id", .vNum 1), ("session_id", .vNum 1),
                   ("player_id", .vNum 1), ("rating", .vNum 2)]⟩ ∧
    objLookup (recordPass dbValidReq (.vNum 1) (.vNum 1) (.vNum 2) 5).2.body "stats" = none ∧
    objLookup (recordPass dbValidReq (.vNum 1) (.vNum 1) (.vNum 2) 5).2.body "total_passes" = none ∧
    objLookup (recordPass dbValidReq (.vNum 1) (.vNum 1) (.vNum 2) 5).2.body "average_rating" = none := by
  exact ⟨rfl, rfl, rfl, rfl⟩

/-- Database with a registered player and session but no pass events, on
which the session-stats query exhibits the NULL average. -/
def dbStatsEmpty : DB :=
  ⟨[⟨1, .vStr "Ana", .vNum 7⟩], [⟨1, .vStr "S", 0⟩], [], 2, 2, 1⟩

/-- C2 counterexample: for a registered player with zero passes in the
session, the stats row is present with total_passes = 0, but its
average_rating is SQL NULL (`none`), not 0 — `AVG` over zero rows is NULL. -/
theorem getSessionStats_null_average_cex :
    getSessionStats dbStatsEmpty 1 = [⟨1, .vStr "Ana", .vNum 7, 0, none⟩] ∧
    (getSessionStats dbStatsEmpty 1).map StatRow.average_rating ≠ [some 0] := by
  refine ⟨rfl, ?_⟩
  decide

/-- C2 (amended): the LEFT JOIN query returns one aggregate row per
registered player — zero-pass players included, with total_passes = 0 —
but for zero-pass players the average_rating is NULL, not 0. -/
theorem getSessionStats_left_join_semantics (db : DB) (sid : ℚ) (p : PlayerRow)
    (hp : p ∈ db.players) :
    playerStat db sid p ∈ getSessionStats db sid ∧
    (getSessionStats db sid).length = db.players.length ∧
    (passMatches db sid (p.id : ℚ) = [] →
      (playerStat db sid p).total_passes = 0 ∧
      (playerStat db sid p).average_rating = none) := by
  refine ⟨List.mem_map_of_mem _ hp, List.length_map _ _, fun h => ?_⟩
  constructor
  · simp [playerStat, h]
  · simp [playerStat, h, numRatings, avgOpt]

/-- Duplicate of the zero-pass database for the C2 witness. -/
def dbStatsEmptyW : DB :=
  ⟨[⟨1, .vStr "Ana", .vNum 7⟩], [⟨1, .vStr "S", 0⟩], [], 2, 2, 1⟩

theorem getSessionStats_left_join_semantics_witness :
    (playerStat dbStatsEmptyW 1 ⟨1, .vStr "Ana", .vNum 7⟩).total_passes = 0 ∧
    (playerStat dbStatsEmptyW 1 ⟨1, .vStr "Ana", .vNum 7⟩).average_rating = none :=
  (getSessionStats_left_join_semantics dbStatsEmptyW 1 ⟨1, .vStr "Ana", .vNum 7⟩
    (List.Mem.head _)).2.2 rfl

/-- Empty registry for the C3 counterexample. -/
def dbRegEmpty : DB := ⟨[], [], [], 1, 1, 1⟩

/-- C3 counterexample: a whitespace-only name (JS-truthy) is accepted —
the handler answers 200 and inserts the player, where the claim demands a
400 rejection leaving the registry unchanged. -/
theorem addPlayer_whitespace_name_accepted_cex :
    (addPlayer dbRegEmpty (.vStr " ") (.vNum 7)).2.status = 200 ∧
    (addPlayer dbRegEmpty (.vStr " ") (.vNum 7)).1.players =
      [⟨1, .vStr " ", .vNum 7⟩] :=
  ⟨rfl, rfl⟩

/-- C3 (amended): `POST /api/players` answers 400 (with the registry
untouched) exactly when `name` or `jersey_number` is JavaScript-falsy
(absent, null, empty string, or the number 0); any truthy values — a
whitespace-only name, a negative or fractional jersey number — are
accepted, the player is inserted, and the response carries the freshly
assigned id. -/
theorem addPlayer_validation_characterization (db : DB) (name jersey : JVal) :
    ((addPlayer db name jersey).2.status = 400 ↔
      (name.truthy = false ∨ jersey.truthy = false)) ∧
    ((addPlayer db name jersey).2.status = 400 → (addPlayer db name jersey).1 = db) ∧
    (name.truthy = true → jersey.truthy = true →
      (addPlayer db name jersey).1.players =
        db.players ++ [⟨db.nextPlayerId, name, intAffinity jersey⟩] ∧
      objLookup (addPlayer db name jersey).2.body "id" =
        some (.vNum (db.nextPlayerId : ℚ))) := by
  cases hn : name.truthy <;> cases hj : jersey.truthy <;>
    simp [addPlayer, hn, hj, objLookup, objLookup.lookupFields]

/-- Empty registry for the C3 witness. -/
def dbRegEmptyW : DB := ⟨[], [], [], 1, 1, 1⟩

theorem addPlayer_validation_characterization_witness :
    (addPlayer dbRegEmptyW (.vStr "Ana") (.vNum 7)).1.players =
      dbRegEmptyW.players ++ [⟨dbRegEmptyW.nextPlayerId, .vStr "Ana", intAffinity (.vNum 7)⟩] ∧
    objLookup (addPlayer dbRegEmptyW (.vStr "Ana") (.vNum 7)).2.body "id" =
      some (.vNum (dbRegEmptyW.nextPlayerId : ℚ)) :=
  (addPlayer_validation_characterization dbRegEmptyW (.vStr "Ana") (.vNum 7)).2.2
    (by decide) (by decide)

/-- Database with session 1 and player 1 for the C4 counterexample. -/
def dbRatingCex : DB :=
  ⟨[⟨1, .vStr "Ana", .vNum 7⟩], [⟨1, .vStr "S", 0⟩], [], 2, 2, 1⟩

/-- C4 counterexample: rating 5/2 is not one of {0,1,2,3}, yet the request
passes the handler's check (`rating === undefined` only) and the store's
`CHECK (rating BETWEEN 0 AND 3)`, so the PassEvent is persisted. -/
theorem recordPass_noninteger_rating_persisted_cex :
    (recordPass dbRatingCex (.vNum 1) (.vNum 1) (.vNum (5/2)) 9).2.status = 200 ∧
    (recordPass dbRatingCex (.vNum 1) (.vNum 1) (.vNum (5/2)) 9).1.pass_stats =
      [⟨1, .vNum 1, .vNum 1, .vNum (5/2), 9⟩] := by
  rw [recordPass_insert dbRatingCex 1 1 (5/2) 9
    (by norm_num) (by norm_num) (by norm_num) (by norm_num)]
  exact ⟨rfl, rfl⟩

/-- C4 (amended): the endpoint layer itself validates only that the rating
is present (not `undefined`); range enforcement is left to the store's
`CHECK (rating BETWEEN 0 AND 3)`.  A numeric rating outside [0,3] is
therefore rejected by the constraint — surfaced as 500, with `pass_stats`
unchanged — while any rating inside [0,3], integer or not, is persisted. -/
theorem recordPass_rating_range_enforcement (db : DB) (sid pid r : ℚ) (now : Nat)
    (hs : sid ≠ 0) (hp : pid ≠ 0) :
    ((r < 0 ∨ 3 < r) →
      recordPass db (.vNum sid) (.vNum pid) (.vNum r) now =
        (db, ⟨500, errBody "SQLITE_CONSTRAINT: CHECK constraint failed: pass_stats"⟩)) ∧
    (0 ≤ r → r ≤ 3 →
      (recordPass db (.vNum sid) (.vNum pid) (.vNum r) now).2.status = 200 ∧
      (recordPass db (.vNum sid) (.vNum pid) (.vNum r) now).1.pass_stats =
        db.pass_stats ++ [⟨db.nextPassId, .vNum sid, .vNum pid, .vNum r, now⟩]) := by
  constructor
  · intro hout
    have hcheck : ratingCheckOk (intAffinity (.vNum r)) = false := by
      rcases hout with h | h
      · simp [intAffinity, ratingCheckOk, not_le.mpr h]
      · simp [intAffinity, ratingCheckOk, not_le.mpr h]
    simp [recordPass, JVal.truthy, JVal.isUndefined, hs, hp, hcheck]
  · intro h0 h3
    rw [recordPass_insert db sid pid r now hs hp h0 h3]
    exact ⟨rfl, rfl⟩

/-- Database with session 1 and player 1 for the C4 witness. -/
def dbRatingW : DB :=
  ⟨[⟨1, .vStr "Ana", .vNum 7⟩], [⟨1, .vStr "S", 0⟩], [], 2, 2, 1⟩

theorem recordPass_rating_range_enforcement_witness :
    recordPass dbRatingW (.vNum 1) (.vNum 1) (.vNum 4) 0 =
      (dbRatingW, ⟨500, errBody "SQLITE_CONSTRAINT: CHECK constraint failed: pass_stats"⟩) :=
  (recordPass_rating_range_enforcement dbRatingW 1 1 4 0
    (by norm_num) (by norm_num)).1 (Or.inr (by norm_num))

/-- First pass of the timestamp tie: inserted first (id 1), rating 2. -/
def tieRowA : PassRow := ⟨1, .vNum 1, .vNum 1, .vNum 2, 10⟩

/-- Second pass of the timestamp tie: inserted second (id 2), rating 3 —
the most-recently inserted event. -/
def tieRowB : PassRow := ⟨2, .vNum 1, .vNum 1, .vNum 3, 10⟩

/-- Two passes for (session 1, player 1) recorded within the same
`CURRENT_TIMESTAMP` second. -/
def dbTie : DB :=
  ⟨[⟨1, .vStr "Ana", .vNum 7⟩], [⟨1, .vStr "S", 0⟩], [tieRowA, tieRowB], 2, 2, 3⟩

/-- C5: `ORDER BY timestamp DESC LIMIT 1` carries no secondary order on the
insertion id, so on a timestamp tie the *earlier* insertion (id 1) is an
admissible query result: the undo run that deletes it is a possible
behavior of the endpoint, after which the most-recently inserted event
(id 2) is the one still stored — contradicting the claimed deterministic
highest-id tie-break. -/
theorem undo_timestamp_tie_ambiguous :
    AdmissibleLastPass dbTie 1 1 tieRowA ∧
    UndoLastPass dbTie 1 1 (undoRespond dbTie 1 1 tieRowA.id) ∧
    (undoRespond dbTie 1 1 tieRowA.id).1.pass_stats = [tieRowB] ∧
    tieRowA.id ≠ tieRowB.id := by
  have hpm : passMatches dbTie 1 1 = [tieRowA, tieRowB] := rfl
  have hadm : AdmissibleLastPass dbTie 1 1 tieRowA := by
    constructor
    · rw [hpm]; exact List.Mem.head _
    · intro s hs
      rw [hpm] at hs
      rcases List.mem_cons.mp hs with rfl | hs
      · exact le_refl _
      · rcases List.mem_cons.mp hs with rfl | hs
        · exact le_refl _
        · exact absurd hs (List.not_mem_nil s)
  refine ⟨hadm, Or.inr ⟨tieRowA, hadm, rfl⟩, rfl, by decide⟩

/-- Registry with player 1 for the C9 counterexample. -/
def dbPutCex : DB := ⟨[⟨1, .vStr "Ana", .vNum 7⟩], [], [], 2, 1, 1⟩

/-- C9 counterexample: `PUT /api/players/1` with `name` missing is not
rejected with 400 — the unvalidated UPDATE reaches the store, where the
`NOT NULL` constraint aborts it and the handler answers 500. -/
theorem updatePlayer_missing_fields_not_400_cex :
    (updatePlayer dbPutCex 1 .vUndefined (.vNum 9)).2.status = 500 ∧
    (updatePlayer dbPutCex 1 .vUndefined (.vNum 9)).2.status ≠ 400 ∧
    (updatePlayer dbPutCex 1 .vUndefined (.vNum 9)).1 = dbPutCex := by
  refine ⟨rfl, ?_, rfl⟩
  decide

/-- C9 (amended): `POST /players`, `POST /sessions` and `POST /pass_stats`
answer missing required fields with 400 and leave the store untouched, but
`PUT /players/:id` performs no validation: the update is always attempted
against the store, answering 500 (NOT NULL violation) when a player with
that id exists and a nullish value was sent, and 200 otherwise — never
400. -/
theorem endpoint_validation_status (db : DB) (now : Nat) :
    (∀ name jersey : JVal, name.truthy = false ∨ jersey.truthy = false →
      addPlayer db name jersey =
        (db, ⟨400, errBody "Name and jersey number are required"⟩)) ∧
    (∀ name : JVal, name.truthy = false →
      createSession db name now = (db, ⟨400, errBody "Session name is required"⟩)) ∧
    (∀ sid pid r : JVal, sid.truthy = false ∨ pid.truthy = false ∨ r.isUndefined = true →
      recordPass db sid pid r now =
        (db, ⟨400, errBody "Session ID, player ID, and rating are required"⟩)) ∧
    (∀ (id : Nat) (name jersey : JVal), name.isNullish = true →
      (db.players.filter (fun p => decide (p.id = id))).isEmpty = false →
      updatePlayer db id name jersey =
        (db, ⟨500, errBody "SQLITE_CONSTRAINT: NOT NULL constraint failed: players"⟩)) ∧
    (∀ (id : Nat) (name jersey : JVal), (updatePlayer db id name jersey).2.status ≠ 400) := by
  refine ⟨?_, ?_, ?_, ?_, ?_⟩
  · intro name jersey h
    rcases h with h | h <;> simp [addPlayer, h]
  · intro name h
    simp [createSession, h]
  · intro sid pid r h
    rcases h with h | h | h <;> simp [recordPass, h]
  · intro id name jersey hnull hexists
    simp [updatePlayer, hnull, hexists]
  · intro id name jersey
    unfold updatePlayer
    split <;> simp

/-- Registry with player 1 for the C9 witness. -/
def dbPutW : DB := ⟨[⟨1, .vStr "Ana", .vNum 7⟩], [], [], 2, 1, 1⟩

theorem endpoint_validation_status_witness :
    updatePlayer dbPutW 1 .vUndefined (.vNum 9) =
      (dbPutW, ⟨500, errBody "SQLITE_CONSTRAINT: NOT NULL constraint failed: players"⟩) :=
  (endpoint_validation_status dbPutW 0).2.2.2.1 1 .vUndefined (.vNum 9)
    (by decide) (by decide)

/-- C7: starting from a database holding no pass events for the pair,
recording the ratings r1..rN (N ≥ 1, each within the store's range)
through `POST /api/pass_stats` and then reading `GET /api/session/:id/stats`
yields, for the registered player with that id, an aggregate row with
total_passes = N and average_rating equal to the exact mean of r1..rN. -/
theorem stats_after_recording_sequence (db : DB) (sid pid : ℚ) (rs : List ℚ)
    (now : Nat) (p : PlayerRow)
    (hs : sid ≠ 0) (hp : pid ≠ 0) (hne : rs ≠ [])
    (hbounds : ∀ r ∈ rs, 0 ≤ r ∧ r ≤ 3)
    (hprev : passMatches db sid pid = [])
    (hmem : p ∈ db.players) (hpid : (p.id : ℚ) = pid) :
    playerStat (recordAll db sid pid rs now) sid p ∈
      getSessionStats (recordAll db sid pid rs now) sid ∧
    (playerStat (recordAll db sid pid rs now) sid p).total_passes = rs.length ∧
    (playerStat (recordAll db sid pid rs now) sid p).average_rating =
      some (rs.sum / (rs.length : ℚ)) := by
  obtain ⟨hpl, hlen, hnum⟩ := recordAll_spec sid pid hs hp rs db now hbounds
  refine ⟨?_, ?_, ?_⟩
  · exact List.mem_map_of_mem _ (hpl ▸ hmem)
  · show (passMatches (recordAll db sid pid rs now) sid (p.id : ℚ)).length = rs.length
    rw [hpid, hlen, hprev]
    simp
  · show avgOpt (numRatings (passMatches (recordAll db sid pid rs now) sid (p.id : ℚ))) =
      some (rs.sum / (rs.length : ℚ))
    rw [hpid, hnum, hprev]
    have : numRatings [] = [] := rfl
    rw [this, List.nil_append]
    exact avgOpt_of_ne_nil rs hne

/-- Fresh database with player 1 and session 1 for the C7 witness. -/
def dbSeqW : DB :=
  ⟨[⟨1, .vStr "Ana", .vNum 7⟩], [⟨1, .vStr "S", 0⟩], [], 2, 2, 1⟩

theorem stats_after_recording_sequence_witness :
    (playerStat (recordAll dbSeqW 1 1 [2, 3, 1] 0) 1 ⟨1, .vStr "Ana", .vNum 7⟩).total_passes = 3 ∧
    (playerStat (recordAll dbSeqW 1 1 [2, 3, 1] 0) 1 ⟨1, .vStr "Ana", .vNum 7⟩).average_rating =
      some 2 := by
  obtain ⟨-, h2, h3⟩ := stats_after_recording_sequence dbSeqW 1 1 [2, 3, 1] 0
    ⟨1, .vStr "Ana", .vNum 7⟩ (by norm_num) (by norm_num) (by decide)
    (by decide) rfl (List.Mem.head _) (by norm_num)
  refine ⟨h2, ?_⟩
  rw [h3]
  norm_num

end VolleyballServer
